import Mathlib

/-!
Shallow embedding of the `rustar-types` crate (files `src/jobs/mod.rs`,
`src/telemetry/mod.rs`, `src/mqtt/telemetry.rs`) and proofs about it.

A Rust `String` is modelled as a `List Char` of Unicode scalar values.
Rust's `String::len` returns the UTF-8 *byte* length, so it is modelled by
`utf8Len` (the sum of the UTF-8 sizes of the characters), not by the list
length.  Rust's `str::trim` strips characters with the Unicode `White_Space`
property from both ends; `str::lines` splits on `'\n'` and removes a single
`'\r'` left at the end of a line (a final trailing line terminator produces
no extra empty line).
-/

set_option maxRecDepth 100000

/-- UTF-8 byte length of a string, the value of Rust `String::len`. -/
def utf8Len (s : List Char) : Nat :=
  (s.map Char.utf8Size).sum

/-- The Unicode `White_Space` property, the predicate used by Rust
`str::trim` (via `char::is_whitespace`). -/
def rustIsWhitespace (c : Char) : Bool :=
  (0x09 ≤ c.toNat && c.toNat ≤ 0x0D) || c.toNat == 0x20 || c.toNat == 0x85 ||
  c.toNat == 0xA0 || c.toNat == 0x1680 ||
  (0x2000 ≤ c.toNat && c.toNat ≤ 0x200A) || c.toNat == 0x2028 ||
  c.toNat == 0x2029 || c.toNat == 0x202F || c.toNat == 0x205F ||
  c.toNat == 0x3000

/-- Rust `str::trim`: remove leading and trailing whitespace characters. -/
def rustTrim (s : List Char) : List Char :=
  ((s.dropWhile rustIsWhitespace).reverse.dropWhile rustIsWhitespace).reverse

/-- Split a string at every `'\n'`; `n` newline characters yield `n + 1`
segments (the behaviour of Rust `str::split('\n')`). -/
def splitOnNl : List Char → List (List Char)
  | [] => [[]]
  | c :: rest =>
    match splitOnNl rest with
    | [] => [[]]
    | l :: ls => if c = '\n' then [] :: l :: ls else (c :: l) :: ls

/-- Remove one `'\r'` from the end of a line, as Rust `str::lines` does to
support `\r\n` line endings. -/
def stripTrailingCr (l : List Char) : List Char :=
  if l.getLast? = some '\r' then l.dropLast else l

/-- Rust `str::lines`: split on `'\n'`, drop the empty segment produced by a
trailing line terminator, and strip one `'\r'` at the end of each line. -/
def rustLines (s : List Char) : List (List Char) :=
  let parts := splitOnNl s
  let parts := if parts.getLast? = some [] then parts.dropLast else parts
  parts.map stripTrailingCr

/-- `TleParseError` from `src/jobs/mod.rs`. -/
inductive TleParseError where
  | InsufficientLines
  | InvalidTle1Length
  | InvalidTle2Length
deriving DecidableEq, Repr

/-- `TleData` from `src/jobs/mod.rs`: name line and the two element lines. -/
structure TleData where
  tle0 : List Char
  tle1 : List Char
  tle2 : List Char
deriving DecidableEq, Repr

/-- `TryFrom<String> for TleData` (`src/jobs/mod.rs`, lines 200-221):
collect the lines, require at least three, trim the first three, and require
the trimmed second and third lines to have (byte) length exactly 69. -/
def TleData.tryFrom (value : List Char) : Except TleParseError TleData :=
  let lines := rustLines value
  if lines.length < 3 then
    .error .InsufficientLines
  else
    let tle0 := rustTrim (lines.getD 0 [])
    let tle1 := rustTrim (lines.getD 1 [])
    let tle2 := rustTrim (lines.getD 2 [])
    if utf8Len tle1 ≠ 69 then
      .error .InvalidTle1Length
    else if utf8Len tle2 ≠ 69 then
      .error .InvalidTle2Length
    else
      .ok ⟨tle0, tle1, tle2⟩

deriving instance DecidableEq for Except

/-- `JobStatus` from `src/jobs/mod.rs` (lines 133-140). -/
inductive JobStatus where
  | Received
  | Scheduled
  | Started
  | Completed
  | Error
deriving DecidableEq, Repr

/-- Modelled from the spec: the crate only declares the `JobStatus` enum;
the lifecycle rules live in the spec (§4.3).  "a freshly registered job
starts in `Received`; initial state". -/
def JobStatus.initial : JobStatus := .Received

/-- Modelled from the spec: `Completed` and `Error` are the terminal states
of the lifecycle (§4.3). -/
def JobStatus.terminal : JobStatus → Bool
  | .Completed => true
  | .Error => true
  | _ => false

/-- Modelled from the spec: the legal transitions of the job lifecycle
state machine, `Received → Scheduled → Started → Completed` with `Error`
reachable from any non-terminal state (§4.3). -/
def JobStatus.canTransition : JobStatus → JobStatus → Bool
  | .Received, .Scheduled => true
  | .Scheduled, .Started => true
  | .Started, .Completed => true
  | s, .Error => !s.terminal
  | _, _ => false

/-- Modelled from the spec: the position of each state along the pipeline
`Received → Scheduled → Started → Completed`, with `Error` terminal;
used to state that transitions never return to an earlier state (§4.3). -/
def JobStatus.rank : JobStatus → Nat
  | .Received => 0
  | .Scheduled => 1
  | .Started => 2
  | .Completed => 3
  | .Error => 4

/-- `Job` from `src/jobs/mod.rs` (lines 47-131).  `chrono::DateTime<Utc>`
instants are modelled as integer timestamps; the `f64` frequency fields are
carried opaquely (no arithmetic is ever performed on them in this crate)
and are modelled as rationals; `u64` carries no arithmetic either and is
modelled as `Nat`. -/
structure Job where
  id : Nat
  satellite_id : List Char
  start : Int
  «end» : Int
  tle : TleData
  rx_frequency : Rat
  tx_frequency : Rat
  uplink : Option (List Nat)
deriving DecidableEq

/-- `Job::new` from `src/jobs/mod.rs` (lines 224-246): a plain constructor
that stores every argument in the corresponding field. -/
def Job.new (id : Nat) (satellite_id : List Char) (start «end» : Int)
    (tle : TleData) (rx_frequency tx_frequency : Rat)
    (uplink : Option (List Nat)) : Job :=
  { id := id
    satellite_id := satellite_id
    start := start
    «end» := «end»
    tle := tle
    rx_frequency := rx_frequency
    tx_frequency := tx_frequency
    uplink := uplink }

/-- `TelemetryRecord` from `src/telemetry/mod.rs` (lines 4-12).  The `f32`
measurement fields are carried opaquely (no arithmetic is performed on
them) and are modelled as rationals; `i64`/`i32` are modelled as `Int`. -/
structure TelemetryRecord where
  id : List Char
  timestamp : Int
  temperature : Rat
  voltage : Rat
  current : Rat
  battery_level : Int
deriving DecidableEq

/-- `TelemetryRecord::with_id` from `src/telemetry/mod.rs` (lines 32-48):
stores the caller-supplied id and measurements unchanged. -/
def TelemetryRecord.with_id (id : List Char) (timestamp : Int)
    (temperature voltage current : Rat) (battery_level : Int) :
    TelemetryRecord :=
  { id := id
    timestamp := timestamp
    temperature := temperature
    voltage := voltage
    current := current
    battery_level := battery_level }

/-- A list of length at least three starts with three elements. -/
lemma exists_three_head : ∀ (ls : List (List Char)), 3 ≤ ls.length →
    ∃ a b c r, ls = a :: b :: c :: r
  | _ :: _ :: _ :: r, _ => ⟨_, _, _, r, rfl⟩
  | [], h => absurd h (by simp)
  | [_], h => absurd h (by simp)
  | [_, _], h => absurd h (by simp)

/-- Evaluation of `TleData.tryFrom` once the line structure is known. -/
lemma tryFrom_cons (s : List Char) (a b c : List Char) (r : List (List Char))
    (h : rustLines s = a :: b :: c :: r) :
    TleData.tryFrom s =
      if utf8Len (rustTrim b) ≠ 69 then .error .InvalidTle1Length
      else if utf8Len (rustTrim c) ≠ 69 then .error .InvalidTle2Length
      else .ok ⟨rustTrim a, rustTrim b, rustTrim c⟩ := by
  simp only [TleData.tryFrom, h]
  norm_num [List.getD]

/-- Dropping a whitespace-only prefix first does not change `dropWhile`. -/
lemma dropWhile_append_all {p : Char → Bool} (w l : List Char)
    (hw : ∀ c ∈ w, p c = true) :
    (w ++ l).dropWhile p = l.dropWhile p := by
  rw [List.dropWhile_append, List.dropWhile_eq_nil_iff.mpr hw]
  simp

/-- Rust `str::trim` ignores whitespace padding on either side. -/
lemma rustTrim_pad (w1 w2 l : List Char)
    (h1 : ∀ c ∈ w1, rustIsWhitespace c = true)
    (h2 : ∀ c ∈ w2, rustIsWhitespace c = true) :
    rustTrim (w1 ++ l ++ w2) = rustTrim l := by
  unfold rustTrim
  rw [List.append_assoc, dropWhile_append_all w1 (l ++ w2) h1]
  by_cases hl : l.dropWhile rustIsWhitespace = []
  · have hall : ∀ c ∈ l, rustIsWhitespace c = true :=
      List.dropWhile_eq_nil_iff.mp hl
    rw [hl, dropWhile_append_all l w2 hall, List.dropWhile_eq_nil_iff.mpr h2]
  · rw [List.dropWhile_append, if_neg (by simpa using hl), List.reverse_append,
      dropWhile_append_all _ _ (by simpa using h2)]

/-- The name line of the concrete scenario in the repository's doc comments. -/
def issName : List Char := "ISS (ZARYA)".data

/-- First TLE element line of the concrete scenario (69 ASCII characters). -/
def issL1 : List Char :=
  "1 25544U 98067A   25235.75642456  .00011222  00000+0  20339-3 0  9993".data

/-- Second TLE element line of the concrete scenario (69 ASCII characters). -/
def issL2 : List Char :=
  "2 25544  51.6355 332.1708 0003307 260.2831  99.7785 15.50129787525648".data

/-- The three-line raw TLE input of the concrete scenario. -/
def issInput : List Char := issName ++ '\n' :: (issL1 ++ '\n' :: issL2)

/-- Modelled from the spec: the NORAD checksum weight of one TLE character —
a digit counts its value, a minus sign counts 1, anything else 0 (§3).  No
checksum arithmetic exists in the source. -/
def tleCharValue (c : Char) : Nat :=
  if c.isDigit then c.toNat - 48 else if c = '-' then 1 else 0

/-- Modelled from the spec: the mod-10 sum of the weighted values of the
first 68 characters of a TLE line (§3). -/
def tleChecksum (l : List Char) : Nat :=
  ((l.take 68).map tleCharValue).sum % 10

/-- Modelled from the spec: a 69-character TLE line carries a valid checksum
when its trailing digit equals the mod-10 weighted sum of the preceding 68
characters (§3). -/
def tleChecksumOk (l : List Char) : Bool :=
  l.getD 68 ' ' == Char.ofNat (48 + tleChecksum l)

/-- Successful evaluation of `TleData.tryFrom` when both element lines have
trimmed UTF-8 byte length 69. -/
lemma tryFrom_ok_of_utf8Len (s : List Char)
    (h3 : 3 ≤ (rustLines s).length)
    (h1 : utf8Len (rustTrim ((rustLines s).getD 1 [])) = 69)
    (h2 : utf8Len (rustTrim ((rustLines s).getD 2 [])) = 69) :
    TleData.tryFrom s =
      .ok ⟨rustTrim ((rustLines s).getD 0 []),
        rustTrim ((rustLines s).getD 1 []),
        rustTrim ((rustLines s).getD 2 [])⟩ := by
  obtain ⟨a, b, c, r, hls⟩ := exists_three_head _ h3
  rw [hls] at h1 h2 ⊢
  simp only [List.getD_cons_succ, List.getD_cons_zero] at h1 h2 ⊢
  rw [tryFrom_cons s a b c r hls, if_neg (by simp [h1]), if_neg (by simp [h2])]

example : TleData.tryFrom "a\nb".data = .error .InsufficientLines := by decide

example :
    TleData.tryFrom ("x\n" ++ String.mk (List.replicate 69 'a') ++ "\n" ++
      String.mk (List.replicate 69 'b')).data =
      .ok ⟨['x'], List.replicate 69 'a', List.replicate 69 'b'⟩ := by decide

/-! ### Claim theorems -/

/-- Input whose second line has 69 characters but 138 UTF-8 bytes. -/
def c3input : List Char :=
  issName ++ '\n' :: (List.replicate 69 'é' ++ '\n' :: issL2)

/-- C3 (counterexample): the claim reads "exactly 69 characters", but the
code compares the UTF-8 byte length (`String::len`).  A trimmed second line
of 69 non-ASCII characters (so 69 characters but 138 bytes) together with a
valid third line is rejected with `InvalidTle1Length`, where the claim
promises success. -/
theorem tle_roundtrip_char_count_cex :
    (rustTrim ((rustLines c3input).getD 1 [])).length = 69 ∧
    (rustTrim ((rustLines c3input).getD 2 [])).length = 69 ∧
    TleData.tryFrom c3input = .error .InvalidTle1Length := by decide

/-- C3 (amended: "69 characters" must be read as 69 UTF-8 bytes, the
quantity `String::len` measures; the two agree on ASCII lines): for every
input with at least three lines whose trimmed lines 1 and 2 each have UTF-8
byte length exactly 69, `TleData::try_from` succeeds and returns the trimmed
first, second and third lines as `tle0`, `tle1`, `tle2`. -/
theorem tle_roundtrip (s : List Char)
    (h3 : 3 ≤ (rustLines s).length)
    (h1 : utf8Len (rustTrim ((rustLines s).getD 1 [])) = 69)
    (h2 : utf8Len (rustTrim ((rustLines s).getD 2 [])) = 69) :
    TleData.tryFrom s =
      .ok ⟨rustTrim ((rustLines s).getD 0 []),
        rustTrim ((rustLines s).getD 1 []),
        rustTrim ((rustLines s).getD 2 [])⟩ :=
  tryFrom_ok_of_utf8Len s h3 h1 h2

/-- C3 (witness): the ISS example of the repository's doc comments satisfies
the hypotheses and round-trips. -/
theorem tle_roundtrip_witness :
    (3 ≤ (rustLines issInput).length ∧
      utf8Len (rustTrim ((rustLines issInput).getD 1 [])) = 69 ∧
      utf8Len (rustTrim ((rustLines issInput).getD 2 [])) = 69) ∧
    TleData.tryFrom issInput =
      .ok ⟨rustTrim ((rustLines issInput).getD 0 []),
        rustTrim ((rustLines issInput).getD 1 []),
        rustTrim ((rustLines issInput).getD 2 [])⟩ :=
  ⟨⟨by decide, by decide, by decide⟩,
    tle_roundtrip issInput (by decide) (by decide) (by decide)⟩

/-- C4: `TleData::try_from` reports `InsufficientLines` exactly when the
input has fewer than three lines (as `str::lines` counts them): the error
occurs for every such input, and for no other input. -/
theorem tle_insufficient_lines_iff (s : List Char) :
    TleData.tryFrom s = .error .InsufficientLines ↔
      (rustLines s).length < 3 := by
  constructor
  · intro h
    by_contra hlen
    obtain ⟨a, b, c, r, hls⟩ := exists_three_head (rustLines s) (by omega)
    rw [tryFrom_cons s a b c r hls] at h
    split at h
    · exact absurd h (by simp)
    · split at h
      · exact absurd h (by simp)
      · exact absurd h (by simp)
  · intro h
    simp [TleData.tryFrom, h]

/-- C4 (witness): a two-line input is rejected with `InsufficientLines`. -/
theorem tle_insufficient_lines_witness :
    TleData.tryFrom ('a' :: '\n' :: ['b']) = .error .InsufficientLines ∧
    (rustLines ('a' :: '\n' :: ['b'])).length < 3 :=
  ⟨(tle_insufficient_lines_iff ('a' :: '\n' :: ['b'])).mpr (by decide),
    by decide⟩

/-- Input whose second line has 35 characters but exactly 69 UTF-8 bytes. -/
def c5input : List Char :=
  issName ++ '\n' :: ((List.replicate 34 'é' ++ ['x']) ++ '\n' :: issL2)

/-- C5 (counterexample): the claim predicts `InvalidTle1Length` whenever the
trimmed line 1 is not exactly 69 characters, but the code compares the UTF-8
byte length.  A trimmed line 1 of 35 characters occupying exactly 69 bytes
(34 two-byte characters and one ASCII character) is accepted, so no
`InvalidTle1Length` is reported. -/
theorem tle_error_order_char_cex :
    (rustTrim ((rustLines c5input).getD 1 [])).length ≠ 69 ∧
    TleData.tryFrom c5input ≠ .error .InvalidTle1Length ∧
    (TleData.tryFrom c5input).isOk = true := by decide

/-- C5 (amended: "69 characters" must be read as 69 UTF-8 bytes, the
quantity `String::len` measures): for every input with at least three lines,
if the trimmed line 1 is not 69 bytes the result is `InvalidTle1Length`
(also when line 2 is wrong as well — the checks run in this fixed order);
otherwise if the trimmed line 2 is not 69 bytes the result is
`InvalidTle2Length`; and the outcome is insensitive to leading/trailing
whitespace because Rust `trim` discards any whitespace padding. -/
theorem tle_error_order :
    (∀ s : List Char, 3 ≤ (rustLines s).length →
      (utf8Len (rustTrim ((rustLines s).getD 1 [])) ≠ 69 →
        TleData.tryFrom s = .error .InvalidTle1Length) ∧
      (utf8Len (rustTrim ((rustLines s).getD 1 [])) = 69 →
        utf8Len (rustTrim ((rustLines s).getD 2 [])) ≠ 69 →
        TleData.tryFrom s = .error .InvalidTle2Length)) ∧
    (∀ w1 w2 l : List Char, (∀ c ∈ w1, rustIsWhitespace c = true) →
      (∀ c ∈ w2, rustIsWhitespace c = true) →
      rustTrim (w1 ++ l ++ w2) = rustTrim l) := by
  refine ⟨?_, rustTrim_pad⟩
  intro s h3
  obtain ⟨a, b, c, r, hls⟩ := exists_three_head (rustLines s) h3
  rw [hls]
  simp only [List.getD_cons_succ, List.getD_cons_zero]
  constructor
  · intro h1
    rw [tryFrom_cons s a b c r hls, if_pos h1]
  · intro h1 h2
    rw [tryFrom_cons s a b c r hls, if_neg (by simp [h1]), if_pos h2]

/-- Input whose second line is shorter than 69 bytes and whose third line is
valid. -/
def c5short : List Char :=
  issName ++ '\n' :: ('1' :: ' ' :: ['2', '5', '5']) ++ '\n' :: issL2

/-- C5 (witness): a short line 1 is reported as `InvalidTle1Length`, and
trimming ignores a space/tab padding around a TLE line. -/
theorem tle_error_order_witness :
    TleData.tryFrom c5short = .error .InvalidTle1Length ∧
    rustTrim ([' '] ++ issL1 ++ [' ', '\t']) = rustTrim issL1 :=
  ⟨(tle_error_order.1 c5short (by decide)).1 (by decide),
    tle_error_order.2 [' '] [' ', '\t'] issL1 (by decide) (by decide)⟩

/-- Input whose second line has 69 characters (137 bytes) and an invalid
checksum. -/
def c6input : List Char :=
  issName ++ '\n' :: ((List.replicate 68 'é' ++ ['1']) ++ '\n' :: issL2)

/-- C6 (counterexample): under the claim's "exactly 69 characters" reading,
a line 1 of 69 characters (68 two-byte characters and a final digit that
does not match the mod-10 checksum) should parse successfully, but the code
compares UTF-8 byte lengths and rejects it with `InvalidTle1Length`. -/
theorem tle_checksum_char_cex :
    (rustTrim ((rustLines c6input).getD 1 [])).length = 69 ∧
    tleChecksumOk (rustTrim ((rustLines c6input).getD 1 [])) = false ∧
    (rustTrim ((rustLines c6input).getD 2 [])).length = 69 ∧
    TleData.tryFrom c6input = .error .InvalidTle1Length := by decide

/-- C6 (amended: "69 characters" must be read as 69 UTF-8 bytes, the
quantity `String::len` measures): checksums are not enforced — every input
with at least three lines whose trimmed lines 1 and 2 are 69 bytes parses
successfully even when the trailing checksum digit of line 1 differs from
the mod-10 weighted sum of the preceding characters. -/
theorem tle_no_checksum_enforcement (s : List Char)
    (h3 : 3 ≤ (rustLines s).length)
    (h1 : utf8Len (rustTrim ((rustLines s).getD 1 [])) = 69)
    (h2 : utf8Len (rustTrim ((rustLines s).getD 2 [])) = 69)
    (hck : tleChecksumOk (rustTrim ((rustLines s).getD 1 [])) = false) :
    (TleData.tryFrom s).isOk = true := by
  rw [tryFrom_ok_of_utf8Len s h3 h1 h2]
  rfl

/-- The ISS input with the trailing checksum digit of line 1 corrupted. -/
def c6badInput : List Char :=
  issName ++ '\n' :: ((issL1.dropLast ++ ['0']) ++ '\n' :: issL2)

/-- C6 (witness): corrupting the checksum digit of the ISS example leaves a
69-byte line with an invalid checksum, and parsing still succeeds. -/
theorem tle_no_checksum_enforcement_witness :
    (3 ≤ (rustLines c6badInput).length ∧
      utf8Len (rustTrim ((rustLines c6badInput).getD 1 [])) = 69 ∧
      utf8Len (rustTrim ((rustLines c6badInput).getD 2 [])) = 69 ∧
      tleChecksumOk (rustTrim ((rustLines c6badInput).getD 1 [])) = false) ∧
    (TleData.tryFrom c6badInput).isOk = true :=
  ⟨⟨by decide, by decide, by decide, by decide⟩,
    tle_no_checksum_enforcement c6badInput
      (by decide) (by decide) (by decide) (by decide)⟩

/-- C10: the parse depends only on the first three lines — two inputs with
at least three lines each that agree on their first three lines parse to the
same result; in particular content after the third line never causes a
failure. -/
theorem tle_first_three_lines_only (s t : List Char)
    (hs : 3 ≤ (rustLines s).length) (ht : 3 ≤ (rustLines t).length)
    (h : (rustLines s).take 3 = (rustLines t).take 3) :
    TleData.tryFrom s = TleData.tryFrom t := by
  obtain ⟨a, b, c, r, hls⟩ := exists_three_head (rustLines s) hs
  obtain ⟨a', b', c', r', hlt⟩ := exists_three_head (rustLines t) ht
  rw [hls, hlt] at h
  simp only [List.take_succ_cons, List.take_zero, List.cons.injEq, and_true]
    at h
  obtain ⟨h0, h1, h2⟩ := h
  rw [tryFrom_cons s a b c r hls, tryFrom_cons t a' b' c' r' hlt, h0, h1, h2]

/-- The ISS input followed by a fourth line of junk. -/
def issInputJunk : List Char := issInput ++ '\n' :: ('j' :: 'u' :: ['n', 'k'])

/-- C10 (witness): appending a junk fourth line to the ISS input does not
change the parse result. -/
theorem tle_first_three_lines_only_witness :
    (3 ≤ (rustLines issInput).length ∧ 3 ≤ (rustLines issInputJunk).length ∧
      (rustLines issInput).take 3 = (rustLines issInputJunk).take 3) ∧
    TleData.tryFrom issInput = TleData.tryFrom issInputJunk :=
  ⟨⟨by decide, by decide, by decide⟩,
    tle_first_three_lines_only issInput issInputJunk
      (by decide) (by decide) (by decide)⟩

/-- C7: in the lifecycle state machine a fresh job starts in `Received`, a
direct `Received → Completed` transition is never permitted, `Error` is
reachable from every non-terminal state, and every legal transition moves
strictly forward along the pipeline (no transition returns to an earlier
state). -/
theorem jobStatus_lifecycle :
    JobStatus.initial = .Received ∧
    JobStatus.canTransition .Received .Completed = false ∧
    (∀ s : JobStatus, s.terminal = false → s.canTransition .Error = true) ∧
    (∀ s t : JobStatus, s.canTransition t = true → s.rank < t.rank) := by
  refine ⟨rfl, rfl, ?_, ?_⟩
  · intro s
    cases s <;> decide
  · intro s t
    cases s <;> cases t <;> decide

/-- C7 (witness): `Started` is non-terminal and may fail into `Error`, and
the legal `Received → Scheduled` transition moves forward. -/
theorem jobStatus_lifecycle_witness :
    JobStatus.canTransition .Started .Error = true ∧
    JobStatus.rank .Received < JobStatus.rank .Scheduled :=
  ⟨jobStatus_lifecycle.2.2.1 .Started rfl,
    jobStatus_lifecycle.2.2.2 .Received .Scheduled rfl⟩

/-- C8: `TelemetryRecord::with_id` stores the supplied id, timestamp,
temperature, voltage, current and battery level unchanged; hence two
constructions given the same id yield records with identical ids. -/
theorem telemetryRecord_with_id_fields (i : List Char) (ts : Int)
    (te v cu : Rat) (b : Int) (ts' : Int) (te' v' cu' : Rat) (b' : Int) :
    (TelemetryRecord.with_id i ts te v cu b).id = i ∧
    (TelemetryRecord.with_id i ts te v cu b).timestamp = ts ∧
    (TelemetryRecord.with_id i ts te v cu b).temperature = te ∧
    (TelemetryRecord.with_id i ts te v cu b).voltage = v ∧
    (TelemetryRecord.with_id i ts te v cu b).current = cu ∧
    (TelemetryRecord.with_id i ts te v cu b).battery_level = b ∧
    (TelemetryRecord.with_id i ts te v cu b).id =
      (TelemetryRecord.with_id i ts' te' v' cu' b').id :=
  ⟨rfl, rfl, rfl, rfl, rfl, rfl, rfl⟩

/-- C9: `Job::new` is total and validates nothing — it returns a `Job`
whose eight fields are exactly the supplied arguments, unchanged. -/
theorem job_new_fields (id : Nat) (sat : List Char) (s e : Int)
    (t : TleData) (rx tx : Rat) (u : Option (List Nat)) :
    (Job.new id sat s e t rx tx u).id = id ∧
    (Job.new id sat s e t rx tx u).satellite_id = sat ∧
    (Job.new id sat s e t rx tx u).start = s ∧
    (Job.new id sat s e t rx tx u).«end» = e ∧
    (Job.new id sat s e t rx tx u).tle = t ∧
    (Job.new id sat s e t rx tx u).rx_frequency = rx ∧
    (Job.new id sat s e t rx tx u).tx_frequency = tx ∧
    (Job.new id sat s e t rx tx u).uplink = u :=
  ⟨rfl, rfl, rfl, rfl, rfl, rfl, rfl, rfl⟩

/-- The TLE value of the concrete scenario, used as a constructor input. -/
def issTle : TleData := ⟨issName, issL1, issL2⟩

/-- C1 (counterexample): `Job::new` never rejects anything — called with
`start = 10` and `end = 5` (so `start >= end`) it succeeds and returns a
`Job` carrying exactly that inverted window, instead of the validation
failure the claim promises. -/
theorem job_new_inverted_window_cex :
    (Job.new 1 issName 10 5 issTle 145800000 437500000 none).«end» <
      (Job.new 1 issName 10 5 issTle 145800000 437500000 none).start ∧
    (Job.new 1 issName 10 5 issTle 145800000 437500000 none).start = 10 ∧
    (Job.new 1 issName 10 5 issTle 145800000 437500000 none).«end» = 5 := by
  refine ⟨?_, rfl, rfl⟩
  decide

/-- C1 (amended): `Job::new` performs no time-window validation —
construction succeeds for every pair of instants, with `start >= end` as
well as with `start < end`, and the returned `Job` carries the supplied
`start` and `end` unchanged. -/
theorem job_new_no_window_validation (id : Nat) (sat : List Char)
    (s e : Int) (t : TleData) (rx tx : Rat) (u : Option (List Nat)) :
    (Job.new id sat s e t rx tx u).start = s ∧
    (Job.new id sat s e t rx tx u).«end» = e :=
  ⟨rfl, rfl⟩

/-- C2 (counterexample): `Job::new` applies no frequency validation —
called with `rx_frequency = 0` and `tx_frequency = -1`, both non-positive,
it succeeds and stores those values instead of reporting the distinct
non-positive-frequency validation error the claim promises. -/
theorem job_new_nonpositive_frequency_cex :
    (Job.new 2 issName 0 900 issTle 0 (-1) none).rx_frequency = 0 ∧
    (Job.new 2 issName 0 900 issTle 0 (-1) none).tx_frequency = -1 :=
  ⟨rfl, rfl⟩

/-- C2 (amended): `Job::new` performs no frequency validation —
construction succeeds for every pair of frequency values, non-positive ones
included, and the returned `Job` carries `rx_frequency` and `tx_frequency`
unchanged. -/
theorem job_new_no_frequency_validation (id : Nat) (sat : List Char)
    (s e : Int) (t : TleData) (rx tx : Rat) (u : Option (List Nat)) :
    (Job.new id sat s e t rx tx u).rx_frequency = rx ∧
    (Job.new id sat s e t rx tx u).tx_frequency = tx :=
  ⟨rfl, rfl⟩
